import Mathlib

/-!
Verification of the Cloudflare Workers transport (`WorkersTransport`) of
fastmcp-cloudflare.

The transport bridges one inbound Workers `Request` to one outbound
`Response`:

* `handleRequest` runs the validation chain (preflight, path, method,
  content type, declared content length), reads and parses the body, and
  composes the response;
* `processMessage` creates a promise, arms a deadline timer
  (`setTimeout` arranging to reject with an Error whose message is
  "Request timeout"),
  broadcasts the message to every registered handler together with a
  completion sink (`responseHandler`) that clears the timer and resolves
  the promise, and catches synchronous handler throws by clearing the
  timer and rejecting;
* `getCorsHeaders` / `handleCors` compute the access-control headers and
  the preflight response.

The embedding below models JavaScript promise settlement explicitly: a
promise settles at most once, every later `resolve` / `reject` is a
no-op, and `clearTimeout` disarms the timer.  Handler behaviour during
the synchronous broadcast is a `HandlerAction` (a list of completion-sink
invocations, optionally followed by a throw); everything that happens
after the broadcast (asynchronous sink invocations by handlers and the
deadline firing) is a list of `ExchangeEvent`s folded over the exchange
state.  `JSON.parse` is a platform primitive and is passed in as an
oracle `pj : String → Option μ` over an abstract message type `μ`.
-/

namespace FastMCPWorkers

/-- A value thrown by JavaScript code: an `Error` object, carrying a
`message` and a `stack`, or any other thrown value represented by its
`String(value)` rendering. -/
inductive JsThrown where
  | errObj (message : String) (stack : String)
  | other (asString : String)

/-- The `data` field the transport places in the 500 envelope:
`error instanceof Error ? error.message : String(error)`.  Note that an
the stack of an `Error` is never consulted. -/
def thrownData : JsThrown → String
  | .errObj m _ => m
  | .other s => s

/-- The `cors` block of `WorkersTransportOptions`. -/
structure CorsOptions where
  enabled : Bool
  origins : List String
  credentials : Bool

/-- Model of `WorkersTransportOptions` after merging with defaults (the constructor
fills every field).  `pathPre` models the source option named
pathPre-fix; `timeout` is the deadline duration in milliseconds (the
model represents the deadline firing as an explicit event, so the
numeric value itself is not consumed by the step functions). -/
structure TransportOptions where
  pathPre : String
  cors : CorsOptions
  maxBodySize : Nat
  timeout : Nat

/-- The `DEFAULT_OPTIONS` constant of the source. -/
def DEFAULT_OPTIONS : TransportOptions :=
  { pathPre := "/mcp"
    cors := { enabled := true, origins := ["*"], credentials := false }
    maxBodySize := 1024 * 1024
    timeout := 30000 }

/-- An inbound Workers `Request` as the transport consumes it: the HTTP
method, the `pathname` of the parsed URL, the header map (keys recorded
lowercased — `Headers.get` is case-insensitive and the source queries
lowercase names) and the body text that `request.text()` would yield. -/
structure Request where
  method : String
  pathname : String
  headers : List (String × String)
  body : String

/-- Model of `request.headers.get(name)`: the value of the first header with the
given (lowercased) name, or `none` when absent. -/
def Request.getHeader (req : Request) (name : String) : Option String :=
  (req.headers.find? (fun p => p.fst == name)).map Prod.snd

/-- Whether `sub` occurs as a contiguous run inside `l`. -/
def listContainsSub (sub : List Char) : List Char → Bool
  | [] => sub.isEmpty
  | c :: t => sub.isPrefixOf (c :: t) || listContainsSub sub t

/-- JavaScript `String.prototype.includes` (the empty string is contained
in every string). -/
def jsIncludes (s sub : String) : Bool :=
  listContainsSub sub.data s.data

/-- JavaScript `String.prototype.startsWith`. -/
def jsStartsWith (s pre : String) : Bool :=
  pre.data.isPrefixOf s.data

/-- Drop leading whitespace, as `parseInt` does. -/
def skipWs : List Char → List Char
  | [] => []
  | c :: t => if c = ' ' ∨ c = '\t' ∨ c = '\n' ∨ c = '\r' then skipWs t else c :: t

/-- The maximal leading run of decimal digits. -/
def takeDigits : List Char → List Char
  | [] => []
  | c :: t => if c.isDigit then c :: takeDigits t else []

/-- The value of a run of decimal digits. -/
def digitsVal (ds : List Char) : Nat :=
  ds.foldl (fun acc c => 10 * acc + (c.toNat - 48)) 0

/-- JavaScript `parseInt` on a base-10 string: skip leading whitespace,
read an optional sign and then a maximal run of decimal digits; `none`
models `NaN` (no digits found). -/
def parseIntJs (s : String) : Option Int :=
  let t := skipWs s.data
  let signed : Int × List Char :=
    match t with
    | '-' :: rest => ((-1 : Int), rest)
    | '+' :: rest => ((1 : Int), rest)
    | _ => ((1 : Int), t)
  let digits := takeDigits signed.snd
  if digits.isEmpty then none
  else some (signed.fst * (digitsVal digits : Nat))

/-- The content-type rejection guard of `handleRequest`:
reject unless the content-type header is present, truthy, and includes
"application/json".  A missing
header and the falsy empty string both reject. -/
def contentTypeRejected (ct : Option String) : Bool :=
  match ct with
  | none => true
  | some c => c == "" || !(jsIncludes c "application/json")

/-- The content-length rejection guard of `handleRequest`:
`contentLength && parseInt(contentLength) > this.options.maxBodySize`.
A missing header and the falsy empty string are not checked, and a `NaN`
parse compares false. -/
def contentLengthExceeds (cl : Option String) (maxBody : Nat) : Bool :=
  match cl with
  | none => false
  | some s =>
    if s == "" then false
    else
      match parseIntJs s with
      | none => false
      | some n => decide ((maxBody : Int) < n)

/-- A response body, viewed structurally: the plain-text bodies, the empty
(`null`) preflight body, `JSON.stringify` of a successful exchange value,
and `JSON.stringify({error: {code, message, data}})`. -/
inductive RespBody (μ : Type) where
  | text (s : String)
  | empty
  | jsonMsg (m : μ)
  | errorEnvelope (code : Int) (message : String) (data : String)

/-- The message field of an error-envelope body, when the body is one. -/
def RespBody.envMessage {μ : Type} : RespBody μ → Option String
  | .errorEnvelope _ m _ => some m
  | _ => none

/-- An outbound Workers `Response`. -/
structure Response (μ : Type) where
  status : Nat
  headers : List (String × String)
  body : RespBody μ

/-- Look a header up in a response header list by exact name. -/
def lookupHeader (hs : List (String × String)) (name : String) : Option String :=
  (hs.find? (fun p => p.fst == name)).map Prod.snd

/-- Model of `getCorsHeaders`: empty when CORS is disabled; otherwise the fixed
allow-methods / allow-headers pairs, the allow-origin pair per the
wildcard / allow-list rules, and the allow-credentials pair when the
credentials flag is set. -/
def getCorsHeaders (opts : TransportOptions) (req : Request) : List (String × String) :=
  if !opts.cors.enabled then []
  else
    let base := [("Access-Control-Allow-Methods", "POST, OPTIONS"),
                 ("Access-Control-Allow-Headers", "Content-Type, Authorization")]
    let origin := req.getHeader "origin"
    let withOrigin :=
      if opts.cors.origins.contains "*" then
        base ++ [("Access-Control-Allow-Origin", "*")]
      else
        match origin with
        | some o =>
          if !(o == "") && opts.cors.origins.contains o then
            base ++ [("Access-Control-Allow-Origin", o)]
          else base
        | none => base
    if opts.cors.credentials then
      withOrigin ++ [("Access-Control-Allow-Credentials", "true")]
    else withOrigin

/-- Model of `handleCors`: the preflight response — 403 when CORS is disabled,
otherwise 204 with a `null` body and the access-control headers. -/
def handleCors {μ : Type} (opts : TransportOptions) (req : Request) : Response μ :=
  if !opts.cors.enabled then
    { status := 403, headers := [], body := RespBody.text "CORS disabled" }
  else
    { status := 204, headers := getCorsHeaders opts req, body := RespBody.empty }

/-- The state of the promise and deadline timer of one exchange: whether
the `setTimeout` timer is still armed, and the settled value of the
promise
(`none` while pending).  A settled promise never changes again. -/
structure ExchangeState (μ : Type) where
  timerArmed : Bool
  result : Option (Except JsThrown μ)

/-- Model of `clearTimeout(timeout)`: disarm the deadline timer. -/
def clearTimeout {μ : Type} (s : ExchangeState μ) : ExchangeState μ :=
  { s with timerArmed := false }

/-- Model of `resolve(v)`: settle the promise with a success value; a no-op when it
is already settled. -/
def promiseResolve {μ : Type} (v : μ) (s : ExchangeState μ) : ExchangeState μ :=
  match s.result with
  | none => { s with result := some (Except.ok v) }
  | some _ => s

/-- Model of `reject(e)`: settle the promise with an error; a no-op when it is
already settled. -/
def promiseReject {μ : Type} (e : JsThrown) (s : ExchangeState μ) : ExchangeState μ :=
  match s.result with
  | none => { s with result := some (Except.error e) }
  | some _ => s

/-- The completion sink handed to handlers:
`(response) => { clearTimeout(timeout); resolve(response); }`. -/
def responseHandler {μ : Type} (v : μ) (s : ExchangeState μ) : ExchangeState μ :=
  promiseResolve v (clearTimeout s)

/-- The model of the Error with message "Request timeout" thrown by the deadline
timer (the stack is irrelevant to the transport and left empty). -/
def timeoutError : JsThrown := JsThrown.errObj "Request timeout" ""

/-- An asynchronous event arriving after the synchronous broadcast: a
handler invoking the completion sink, or the deadline timer firing. -/
inductive ExchangeEvent (μ : Type) where
  | sinkCall (v : μ)
  | timerFire

/-- Apply one asynchronous event.  A `timerFire` only acts when the timer
is still armed; firing consumes the timer and rejects the promise with
the timeout error. -/
def applyEvent {μ : Type} (s : ExchangeState μ) : ExchangeEvent μ → ExchangeState μ
  | .sinkCall v => responseHandler v s
  | .timerFire =>
    if s.timerArmed then promiseReject timeoutError { s with timerArmed := false } else s

/-- The synchronous behaviour of one handler during broadcast: the values
it passes to the completion sink, in order, and optionally a value it
then throws. -/
inductive HandlerAction (μ : Type) where
  | ret (calls : List μ)
  | throws (calls : List μ) (e : JsThrown)

/-- Run the synchronous sink invocations of one handler. -/
def runCalls {μ : Type} (calls : List μ) (s : ExchangeState μ) : ExchangeState μ :=
  calls.foldl (fun st v => responseHandler v st) s

/-- One step of the `forEach` broadcast: invoke the handler on the
message; when it throws, the surrounding `catch` clears the timer and
rejects with the thrown value, and the iteration continues. -/
def broadcastStep {μ : Type} (msg : μ) (s : ExchangeState μ)
    (h : μ → HandlerAction μ) : ExchangeState μ :=
  match h msg with
  | .ret calls => runCalls calls s
  | .throws calls e => promiseReject e (clearTimeout (runCalls calls s))

/-- The exchange state at promise construction: timer armed, no result. -/
def initExchange {μ : Type} : ExchangeState μ :=
  { timerArmed := true, result := none }

/-- Model of `processMessage`: arm the timer, broadcast the message to every
registered handler, then let the asynchronous events play out; the
awaited outcome is the settled value of the promise (`none` when it never
settles, in which case the `await` never completes). -/
def processMessage {μ : Type} (handlers : List (μ → HandlerAction μ)) (msg : μ)
    (events : List (ExchangeEvent μ)) : Option (Except JsThrown μ) :=
  (events.foldl applyEvent (handlers.foldl (broadcastStep msg) initExchange)).result

/-- The observable outcome of `handleRequest`: the response (`none` when
the awaited promise never settles and no response is ever produced),
whether `request.text()` was reached, and whether the broadcast to the
handler registry was reached. -/
structure HandleResult (μ : Type) where
  response : Option (Response μ)
  bodyRead : Bool
  broadcastReached : Bool

/-- Model of `handleRequest`: the full request path of the transport.  `pj` is the
`JSON.parse` oracle; `handlers` is the registered handler set in
registration order; `events` are the asynchronous events after the
broadcast. -/
def handleRequest {μ : Type} (opts : TransportOptions)
    (handlers : List (μ → HandlerAction μ)) (events : List (ExchangeEvent μ))
    (pj : String → Option μ) (req : Request) : HandleResult μ :=
  if req.method == "OPTIONS" then
    { response := some (handleCors opts req), bodyRead := false, broadcastReached := false }
  else if !(jsStartsWith req.pathname opts.pathPre) then
    { response := some { status := 404, headers := [], body := RespBody.text "Not Found" }
      bodyRead := false, broadcastReached := false }
  else if req.method != "POST" then
    { response := some { status := 405, headers := [("Allow", "POST, OPTIONS")]
                         body := RespBody.text "Method Not Allowed" }
      bodyRead := false, broadcastReached := false }
  else if contentTypeRejected (req.getHeader "content-type") then
    { response := some { status := 400, headers := []
                         body := RespBody.text "Bad Request: Content-Type must be application/json" }
      bodyRead := false, broadcastReached := false }
  else if contentLengthExceeds (req.getHeader "content-length") opts.maxBodySize then
    { response := some { status := 413, headers := [], body := RespBody.text "Payload Too Large" }
      bodyRead := false, broadcastReached := false }
  else
    match pj req.body with
    | none =>
      { response := some { status := 400, headers := []
                           body := RespBody.text "Bad Request: Invalid JSON" }
        bodyRead := true, broadcastReached := false }
    | some msg =>
      match processMessage handlers msg events with
      | none => { response := none, bodyRead := true, broadcastReached := true }
      | some (Except.ok v) =>
        { response := some { status := 200
                             headers := ("Content-Type", "application/json") :: getCorsHeaders opts req
                             body := RespBody.jsonMsg v }
          bodyRead := true, broadcastReached := true }
      | some (Except.error e) =>
        { response := some { status := 500
                             headers := ("Content-Type", "application/json") :: getCorsHeaders opts req
                             body := RespBody.errorEnvelope (-32603) "Internal error" (thrownData e) }
          bodyRead := true, broadcastReached := true }

/-- Concrete requests used to evaluate the model. -/
def reqPostMcp : Request :=
  { method := "POST", pathname := "/mcp"
    headers := [("content-type", "application/json")], body := "null" }

def reqPostOff : Request :=
  { method := "POST", pathname := "/other"
    headers := [("content-type", "application/json")], body := "null" }

def reqGetOff : Request :=
  { method := "GET", pathname := "/unrelated", headers := [], body := "" }

def reqPostBig : Request :=
  { method := "POST", pathname := "/mcp"
    headers := [("content-type", "application/json"), ("content-length", "2000000")]
    body := "" }

def reqOptionsOff : Request :=
  { method := "OPTIONS", pathname := "/definitely-not-mcp", headers := [], body := "" }

def reqOptionsMcp : Request :=
  { method := "OPTIONS", pathname := "/mcp"
    headers := [("origin", "https://b.com")], body := "" }

/-! Helper lemmas about the exchange state machine.  A settled promise is
never changed by later sink invocations, timer events, or further
broadcast steps. -/

theorem responseHandler_settled {μ : Type} (ta : Bool) (r : Except JsThrown μ) (v : μ) :
    responseHandler v (⟨ta, some r⟩ : ExchangeState μ) = ⟨false, some r⟩ := rfl

theorem applyEvent_settled {μ : Type} (ta : Bool) (r : Except JsThrown μ) (e : ExchangeEvent μ) :
    ∃ ta', applyEvent (⟨ta, some r⟩ : ExchangeState μ) e = ⟨ta', some r⟩ := by
  cases e with
  | sinkCall v => exact ⟨false, rfl⟩
  | timerFire => cases ta with
    | false => exact ⟨false, rfl⟩
    | true => exact ⟨false, rfl⟩

theorem foldl_applyEvent_settled {μ : Type} (es : List (ExchangeEvent μ)) (ta : Bool)
    (r : Except JsThrown μ) :
    (es.foldl applyEvent (⟨ta, some r⟩ : ExchangeState μ)).result = some r := by
  induction es generalizing ta with
  | nil => rfl
  | cons e es ih =>
    obtain ⟨ta', hta⟩ := applyEvent_settled ta r e
    rw [List.foldl_cons, hta]
    exact ih ta'

theorem runCalls_settled {μ : Type} (calls : List μ) (ta : Bool) (r : Except JsThrown μ) :
    ∃ ta', runCalls calls (⟨ta, some r⟩ : ExchangeState μ) = ⟨ta', some r⟩ := by
  induction calls generalizing ta with
  | nil => exact ⟨ta, rfl⟩
  | cons v vs ih =>
    have h1 : runCalls (v :: vs) (⟨ta, some r⟩ : ExchangeState μ)
        = runCalls vs ⟨false, some r⟩ := rfl
    rw [h1]
    exact ih false

theorem broadcastStep_settled {μ : Type} (msg : μ) (f : μ → HandlerAction μ) (ta : Bool)
    (r : Except JsThrown μ) :
    ∃ ta', broadcastStep msg (⟨ta, some r⟩ : ExchangeState μ) f = ⟨ta', some r⟩ := by
  unfold broadcastStep
  cases f msg with
  | ret calls => exact runCalls_settled calls ta r
  | throws calls e =>
    obtain ⟨ta', hta⟩ := runCalls_settled calls ta r
    refine ⟨false, ?_⟩
    show promiseReject e (clearTimeout (runCalls calls ⟨ta, some r⟩)) = ⟨false, some r⟩
    rw [hta]
    rfl

theorem foldl_broadcastStep_settled {μ : Type} (msg : μ) (hs : List (μ → HandlerAction μ))
    (ta : Bool) (r : Except JsThrown μ) :
    ∃ ta', hs.foldl (broadcastStep msg) (⟨ta, some r⟩ : ExchangeState μ) = ⟨ta', some r⟩ := by
  induction hs generalizing ta with
  | nil => exact ⟨ta, rfl⟩
  | cons f fs ih =>
    obtain ⟨ta', hta⟩ := broadcastStep_settled msg f ta r
    rw [List.foldl_cons, hta]
    exact ih ta'

/-- Handlers that neither invoke the sink nor throw leave the exchange
state untouched by the broadcast. -/
theorem foldl_broadcast_inert {μ : Type} {msg : μ} :
    ∀ {handlers : List (μ → HandlerAction μ)},
      (∀ f ∈ handlers, f msg = HandlerAction.ret []) →
      ∀ s : ExchangeState μ, handlers.foldl (broadcastStep msg) s = s := by
  intro handlers
  induction handlers with
  | nil => intro _ s; rfl
  | cons f fs ih =>
    intro h s
    have hf : f msg = HandlerAction.ret [] := h f (List.mem_cons_self f fs)
    have hstep : broadcastStep msg s f = s := by
      unfold broadcastStep
      rw [hf]
      rfl
    rw [List.foldl_cons, hstep]
    exact ih (fun g hg => h g (List.mem_cons_of_mem f hg)) s

/-- With an inert registry, the deadline firing settles the exchange with
the timeout error, and every later event is discarded. -/
theorem processMessage_timeout {μ : Type} {handlers : List (μ → HandlerAction μ)} {msg : μ}
    (hin : ∀ f ∈ handlers, f msg = HandlerAction.ret [])
    (post : List (ExchangeEvent μ)) :
    processMessage handlers msg (ExchangeEvent.timerFire :: post)
      = some (Except.error timeoutError) := by
  unfold processMessage
  rw [foldl_broadcast_inert hin]
  have h1 : applyEvent (initExchange : ExchangeState μ) ExchangeEvent.timerFire
      = ⟨false, some (Except.error timeoutError)⟩ := rfl
  rw [List.foldl_cons, h1]
  exact foldl_applyEvent_settled post false _

/-- When the first non-inert handler throws synchronously, the broadcast
settles the exchange with that error, and every later handler and event
is a no-op on the settled result. -/
theorem processMessage_throw_first {μ : Type} (hpre hs2 : List (μ → HandlerAction μ)) (msg : μ)
    (e : JsThrown) (events : List (ExchangeEvent μ))
    (hin : ∀ f ∈ hpre, f msg = HandlerAction.ret []) :
    processMessage (hpre ++ (fun _ => HandlerAction.throws [] e) :: hs2) msg events
      = some (Except.error e) := by
  unfold processMessage
  rw [List.foldl_append, foldl_broadcast_inert hin, List.foldl_cons]
  have h1 : broadcastStep msg (initExchange : ExchangeState μ) (fun _ => HandlerAction.throws [] e)
      = ⟨false, some (Except.error e)⟩ := rfl
  rw [h1]
  obtain ⟨ta', hta⟩ := foldl_broadcastStep_settled msg hs2 false (Except.error e)
  rw [hta]
  exact foldl_applyEvent_settled events ta' _

/-- C4: resolution of an exchange is one-shot and idempotent.  The first
invocation of the completion sink writes the result slot with its value
and cancels the deadline timer; a second invocation of the same sink is a
no-op leaving the whole state — and hence the produced response —
unchanged; and the settled result survives any sequence of further sink
invocations or timer events, so no second response is ever emitted. -/
theorem sink_resolution_one_shot {μ : Type} (s : ExchangeState μ) (h : s.result = none)
    (v w : μ) :
    (responseHandler v s).result = some (Except.ok v)
    ∧ (responseHandler v s).timerArmed = false
    ∧ responseHandler w (responseHandler v s) = responseHandler v s
    ∧ ∀ es : List (ExchangeEvent μ),
        (es.foldl applyEvent (responseHandler v s)).result = some (Except.ok v) := by
  obtain ⟨ta, res⟩ := s
  have hres : res = none := h
  subst hres
  refine ⟨rfl, rfl, rfl, fun es => ?_⟩
  exact foldl_applyEvent_settled es false (Except.ok v)

theorem sink_resolution_one_shot_witness :
    (responseHandler 1 (initExchange : ExchangeState Nat)).result = some (Except.ok 1)
    ∧ responseHandler 2 (responseHandler 1 (initExchange : ExchangeState Nat))
        = responseHandler 1 initExchange
    ∧ ([ExchangeEvent.sinkCall 5, ExchangeEvent.timerFire].foldl applyEvent
        (responseHandler 1 (initExchange : ExchangeState Nat))).result = some (Except.ok 1) :=
  ⟨(sink_resolution_one_shot initExchange rfl 1 2).1,
   (sink_resolution_one_shot initExchange rfl 1 2).2.2.1,
   (sink_resolution_one_shot initExchange rfl 1 2).2.2.2
     [ExchangeEvent.sinkCall 5, ExchangeEvent.timerFire]⟩

/-- C9: once the deadline has fired and the timeout error has settled the
exchange, any later invocation of the completion sink is discarded: the
outcome stays the timeout error, and appending a late sink invocation to
the event sequence leaves the outcome unchanged — no second response is
ever produced for the request. -/
theorem late_sink_after_timeout_discarded {μ : Type} (handlers : List (μ → HandlerAction μ))
    (msg : μ) (hin : ∀ f ∈ handlers, f msg = HandlerAction.ret [])
    (post : List (ExchangeEvent μ)) (v : μ) :
    processMessage handlers msg (ExchangeEvent.timerFire :: post)
      = some (Except.error timeoutError)
    ∧ processMessage handlers msg (ExchangeEvent.timerFire :: (post ++ [ExchangeEvent.sinkCall v]))
        = processMessage handlers msg (ExchangeEvent.timerFire :: post) := by
  refine ⟨processMessage_timeout hin post, ?_⟩
  rw [processMessage_timeout hin post,
    processMessage_timeout hin (post ++ [ExchangeEvent.sinkCall v])]

theorem late_sink_after_timeout_discarded_witness :
    processMessage ([] : List (Nat → HandlerAction Nat)) 0
        (ExchangeEvent.timerFire :: [ExchangeEvent.sinkCall 7])
      = some (Except.error timeoutError)
    ∧ processMessage ([] : List (Nat → HandlerAction Nat)) 0
        (ExchangeEvent.timerFire :: ([ExchangeEvent.sinkCall 7] ++ [ExchangeEvent.sinkCall 5]))
      = processMessage [] 0 (ExchangeEvent.timerFire :: [ExchangeEvent.sinkCall 7]) :=
  late_sink_after_timeout_discarded [] 0 (by simp) [ExchangeEvent.sinkCall 7] 5

/-- A validated POST request reaches the exchange: with the method `POST`,
the path on the configured path option, an acceptable content type, a
declared length not exceeding the bound, and a parseable body, the
response is determined by the exchange outcome alone. -/
theorem handleRequest_reaches_exchange {μ : Type} (opts : TransportOptions)
    (handlers : List (μ → HandlerAction μ)) (events : List (ExchangeEvent μ))
    (pj : String → Option μ) (req : Request) (msg : μ)
    (hpost : (req.method == "POST") = true)
    (hpath : jsStartsWith req.pathname opts.pathPre = true)
    (hct : contentTypeRejected (req.getHeader "content-type") = false)
    (hcl : contentLengthExceeds (req.getHeader "content-length") opts.maxBodySize = false)
    (hparse : pj req.body = some msg) :
    handleRequest opts handlers events pj req =
      match processMessage handlers msg events with
      | none => { response := none, bodyRead := true, broadcastReached := true }
      | some (Except.ok v) =>
        { response := some { status := 200
                             headers := ("Content-Type", "application/json") :: getCorsHeaders opts req
                             body := RespBody.jsonMsg v }
          bodyRead := true, broadcastReached := true }
      | some (Except.error e) =>
        { response := some { status := 500
                             headers := ("Content-Type", "application/json") :: getCorsHeaders opts req
                             body := RespBody.errorEnvelope (-32603) "Internal error" (thrownData e) }
          bodyRead := true, broadcastReached := true } := by
  have hm : req.method = "POST" := by simpa using hpost
  have h1 : (req.method == "OPTIONS") = false := by rw [hm]; rfl
  have h2 : (req.method != "POST") = false := by simp [bne, hpost]
  simp [handleRequest, h1, h2, hpath, hct, hcl, hparse]

/-- C1 (amended): with an inert registry, the deadline firing yields a 500
response whose error envelope has code -32603, message field
"Internal error", and data field "Request timeout" — the message of the
timeout error is carried in `data`, not in `message`. -/
theorem timeout_response_is_internal_error {μ : Type} (opts : TransportOptions)
    (handlers : List (μ → HandlerAction μ)) (post : List (ExchangeEvent μ))
    (pj : String → Option μ) (req : Request) (msg : μ)
    (hpost : (req.method == "POST") = true)
    (hpath : jsStartsWith req.pathname opts.pathPre = true)
    (hct : contentTypeRejected (req.getHeader "content-type") = false)
    (hcl : contentLengthExceeds (req.getHeader "content-length") opts.maxBodySize = false)
    (hparse : pj req.body = some msg)
    (hin : ∀ f ∈ handlers, f msg = HandlerAction.ret []) :
    (handleRequest opts handlers (ExchangeEvent.timerFire :: post) pj req).response =
      some { status := 500
             headers := ("Content-Type", "application/json") :: getCorsHeaders opts req
             body := RespBody.errorEnvelope (-32603) "Internal error" "Request timeout" } := by
  rw [handleRequest_reaches_exchange opts handlers (ExchangeEvent.timerFire :: post) pj req msg
      hpost hpath hct hcl hparse,
    processMessage_timeout hin post]
  rfl

/-- C1 counterexample: at a validated POST on the default options where no
handler resolves before the deadline, the message field of the 500
envelope is
"Internal error", not "Request timeout" (the latter appears only as
`data`), refuting the claimed message value. -/
theorem timeout_message_cex :
    (handleRequest DEFAULT_OPTIONS ([] : List (Nat → HandlerAction Nat))
        [ExchangeEvent.timerFire] (fun _ => some 0) reqPostMcp).response =
      some { status := 500
             headers := [("Content-Type", "application/json"),
                         ("Access-Control-Allow-Methods", "POST, OPTIONS"),
                         ("Access-Control-Allow-Headers", "Content-Type, Authorization"),
                         ("Access-Control-Allow-Origin", "*")]
             body := RespBody.errorEnvelope (-32603) "Internal error" "Request timeout" }
    ∧ ("Internal error" : String) ≠ "Request timeout" :=
  ⟨rfl, by decide⟩

theorem timeout_response_is_internal_error_witness :
    (handleRequest DEFAULT_OPTIONS ([] : List (Nat → HandlerAction Nat))
        (ExchangeEvent.timerFire :: []) (fun _ => some 0) reqPostMcp).response =
      some { status := 500
             headers := ("Content-Type", "application/json") ::
               getCorsHeaders DEFAULT_OPTIONS reqPostMcp
             body := RespBody.errorEnvelope (-32603) "Internal error" "Request timeout" } :=
  timeout_response_is_internal_error DEFAULT_OPTIONS [] [] (fun _ => some 0) reqPostMcp 0
    rfl rfl rfl rfl rfl (by simp)

/-- C5: a POST on the configured path with acceptable content type whose
declared Content-Length parses to a value strictly above `maxBodySize`
yields the 413 response, the body is never read, and the handler registry
broadcast is never reached. -/
theorem oversized_declared_length_rejected {μ : Type} (opts : TransportOptions)
    (handlers : List (μ → HandlerAction μ)) (events : List (ExchangeEvent μ))
    (pj : String → Option μ) (req : Request) (s : String) (n : Int)
    (hpost : (req.method == "POST") = true)
    (hpath : jsStartsWith req.pathname opts.pathPre = true)
    (hct : contentTypeRejected (req.getHeader "content-type") = false)
    (hs : req.getHeader "content-length" = some s)
    (hn : parseIntJs s = some n)
    (hgt : (opts.maxBodySize : Int) < n) :
    handleRequest opts handlers events pj req =
      { response := some { status := 413, headers := [], body := RespBody.text "Payload Too Large" }
        bodyRead := false, broadcastReached := false } := by
  have hm : req.method = "POST" := by simpa using hpost
  have h1 : (req.method == "OPTIONS") = false := by rw [hm]; rfl
  have h2 : (req.method != "POST") = false := by simp [bne, hpost]
  have hse : (s == "") = false := by
    cases hemp : (s == "") with
    | false => rfl
    | true =>
      have heq : s = "" := by simpa using hemp
      rw [heq, show parseIntJs "" = none from rfl] at hn
      exact Option.noConfusion hn
  have hcl : contentLengthExceeds (req.getHeader "content-length") opts.maxBodySize = true := by
    rw [hs]
    simp [contentLengthExceeds, hse, hn, hgt]
  simp [handleRequest, h1, h2, hpath, hct, hcl]

theorem oversized_declared_length_rejected_witness :
    handleRequest DEFAULT_OPTIONS ([] : List (Nat → HandlerAction Nat)) []
        (fun _ => some 0) reqPostBig =
      { response := some { status := 413, headers := [], body := RespBody.text "Payload Too Large" }
        bodyRead := false, broadcastReached := false } :=
  oversized_declared_length_rejected DEFAULT_OPTIONS [] [] (fun _ => some 0) reqPostBig
    "2000000" 2000000 rfl rfl rfl rfl rfl (by decide)

/-- C7: when a handler throws synchronously during the broadcast before
any sink invocation, the exchange settles with that error and the
response is the uniform 500 envelope with code -32603 whose data field is
exactly the message string of the error — the conclusion holds for every stack
`st`, so no execution stack state ever reaches the response. -/
theorem handler_throw_yields_500 {μ : Type} (opts : TransportOptions)
    (hpre hs2 : List (μ → HandlerAction μ)) (events : List (ExchangeEvent μ))
    (pj : String → Option μ) (req : Request) (msg : μ) (m st : String)
    (hpost : (req.method == "POST") = true)
    (hpath : jsStartsWith req.pathname opts.pathPre = true)
    (hct : contentTypeRejected (req.getHeader "content-type") = false)
    (hcl : contentLengthExceeds (req.getHeader "content-length") opts.maxBodySize = false)
    (hparse : pj req.body = some msg)
    (hin : ∀ f ∈ hpre, f msg = HandlerAction.ret []) :
    (handleRequest opts
        (hpre ++ (fun _ => HandlerAction.throws [] (JsThrown.errObj m st)) :: hs2)
        events pj req).response =
      some { status := 500
             headers := ("Content-Type", "application/json") :: getCorsHeaders opts req
             body := RespBody.errorEnvelope (-32603) "Internal error" m } := by
  rw [handleRequest_reaches_exchange opts
      (hpre ++ (fun _ => HandlerAction.throws [] (JsThrown.errObj m st)) :: hs2)
      events pj req msg hpost hpath hct hcl hparse,
    processMessage_throw_first hpre hs2 msg (JsThrown.errObj m st) events hin]
  rfl

theorem handler_throw_yields_500_witness :
    (handleRequest DEFAULT_OPTIONS
        (([] : List (Nat → HandlerAction Nat)) ++
          (fun _ => HandlerAction.throws [] (JsThrown.errObj "boom" "secret stack")) ::
            [fun m => HandlerAction.ret [m]])
        [ExchangeEvent.sinkCall 9] (fun _ => some 0) reqPostMcp).response =
      some { status := 500
             headers := ("Content-Type", "application/json") ::
               getCorsHeaders DEFAULT_OPTIONS reqPostMcp
             body := RespBody.errorEnvelope (-32603) "Internal error" "boom" } :=
  handler_throw_yields_500 DEFAULT_OPTIONS [] [fun m => HandlerAction.ret [m]]
    [ExchangeEvent.sinkCall 9] (fun _ => some 0) reqPostMcp 0 "boom" "secret stack"
    rfl rfl rfl rfl rfl (by simp)

def reqGetMcp : Request :=
  { method := "GET", pathname := "/mcp", headers := [], body := "" }

/-- C3 (amended): the path check precedes the method check.  A request
whose method is neither POST nor OPTIONS is answered 405 with the Allow
header only when its path is on the configured path option; off the
configured path it is answered 404, not 405. -/
theorem path_check_precedes_method_check {μ : Type} (opts : TransportOptions)
    (handlers : List (μ → HandlerAction μ)) (events : List (ExchangeEvent μ))
    (pj : String → Option μ) (req : Request)
    (h1 : (req.method == "OPTIONS") = false)
    (h2 : (req.method == "POST") = false) :
    (jsStartsWith req.pathname opts.pathPre = false →
      handleRequest opts handlers events pj req =
        { response := some { status := 404, headers := [], body := RespBody.text "Not Found" }
          bodyRead := false, broadcastReached := false })
    ∧ (jsStartsWith req.pathname opts.pathPre = true →
      handleRequest opts handlers events pj req =
        { response := some { status := 405, headers := [("Allow", "POST, OPTIONS")]
                             body := RespBody.text "Method Not Allowed" }
          bodyRead := false, broadcastReached := false }) := by
  constructor
  · intro hp
    simp [handleRequest, h1, hp]
  · intro hp
    simp [handleRequest, h1, h2, hp, bne]

/-- C3 counterexample: a GET request off the configured path is answered
404, not the claimed 405 short-circuit. -/
theorem method_check_order_cex :
    (handleRequest DEFAULT_OPTIONS ([] : List (Nat → HandlerAction Nat)) []
        (fun _ => none) reqGetOff).response
      = some { status := 404, headers := [], body := RespBody.text "Not Found" }
    ∧ (404 : Nat) ≠ 405 :=
  ⟨rfl, by decide⟩

theorem path_check_precedes_method_check_witness :
    handleRequest DEFAULT_OPTIONS ([] : List (Nat → HandlerAction Nat)) []
        (fun _ => none) reqGetOff
      = { response := some { status := 404, headers := [], body := RespBody.text "Not Found" }
          bodyRead := false, broadcastReached := false }
    ∧ handleRequest DEFAULT_OPTIONS ([] : List (Nat → HandlerAction Nat)) []
        (fun _ => none) reqGetMcp
      = { response := some { status := 405, headers := [("Allow", "POST, OPTIONS")]
                             body := RespBody.text "Method Not Allowed" }
          bodyRead := false, broadcastReached := false } :=
  ⟨(path_check_precedes_method_check DEFAULT_OPTIONS [] [] (fun _ => none) reqGetOff
      rfl rfl).1 rfl,
   (path_check_precedes_method_check DEFAULT_OPTIONS [] [] (fun _ => none) reqGetMcp
      rfl rfl).2 rfl⟩

/-- C8: an OPTIONS request on the configured path is answered by the
preflight branch: 204 with an empty body and the access-control headers
when CORS is enabled, and 403 when CORS is disabled. -/
theorem options_preflight {μ : Type} (opts : TransportOptions)
    (handlers : List (μ → HandlerAction μ)) (events : List (ExchangeEvent μ))
    (pj : String → Option μ) (req : Request)
    (hm : (req.method == "OPTIONS") = true)
    (hp : jsStartsWith req.pathname opts.pathPre = true) :
    handleRequest opts handlers events pj req
      = { response := some (handleCors opts req), bodyRead := false, broadcastReached := false }
    ∧ (opts.cors.enabled = true →
        (handleCors opts req : Response μ)
          = { status := 204, headers := getCorsHeaders opts req, body := RespBody.empty })
    ∧ (opts.cors.enabled = false →
        (handleCors opts req : Response μ)
          = { status := 403, headers := [], body := RespBody.text "CORS disabled" }) := by
  refine ⟨by simp [handleRequest, hm], fun he => ?_, fun he => ?_⟩
  · simp [handleCors, he]
  · simp [handleCors, he]

theorem options_preflight_witness :
    handleRequest DEFAULT_OPTIONS ([] : List (Nat → HandlerAction Nat)) []
        (fun _ => none) reqOptionsMcp
      = { response := some (handleCors DEFAULT_OPTIONS reqOptionsMcp)
          bodyRead := false, broadcastReached := false }
    ∧ (handleCors DEFAULT_OPTIONS reqOptionsMcp : Response Nat)
        = { status := 204, headers := getCorsHeaders DEFAULT_OPTIONS reqOptionsMcp
            body := RespBody.empty } :=
  ⟨(options_preflight DEFAULT_OPTIONS [] [] (fun _ => none) reqOptionsMcp rfl rfl).1,
   (options_preflight DEFAULT_OPTIONS [] [] (fun _ => none) reqOptionsMcp rfl rfl).2.1 rfl⟩

/-- C10: every OPTIONS request — including one whose path is off the
configured path option — takes the preflight branch before the path
check: the response is `handleCors`, whose status is 204 or 403 and never
404. -/
theorem options_bypasses_path_check {μ : Type} (opts : TransportOptions)
    (handlers : List (μ → HandlerAction μ)) (events : List (ExchangeEvent μ))
    (pj : String → Option μ) (req : Request)
    (hm : (req.method == "OPTIONS") = true) :
    handleRequest opts handlers events pj req
      = { response := some (handleCors opts req), bodyRead := false, broadcastReached := false }
    ∧ ((handleCors opts req : Response μ).status = 204
        ∨ (handleCors opts req : Response μ).status = 403)
    ∧ (handleCors opts req : Response μ).status ≠ 404 := by
  refine ⟨by simp [handleRequest, hm], ?_, ?_⟩
  · cases he : opts.cors.enabled with
    | true => simp [handleCors, he]
    | false => simp [handleCors, he]
  · cases he : opts.cors.enabled with
    | true => simp [handleCors, he]
    | false => simp [handleCors, he]

theorem options_bypasses_path_check_witness :
    handleRequest DEFAULT_OPTIONS ([] : List (Nat → HandlerAction Nat)) []
        (fun _ => none) reqOptionsOff
      = { response := some (handleCors DEFAULT_OPTIONS reqOptionsOff)
          bodyRead := false, broadcastReached := false }
    ∧ (handleCors DEFAULT_OPTIONS reqOptionsOff : Response Nat).status ≠ 404 :=
  ⟨(options_bypasses_path_check DEFAULT_OPTIONS [] [] (fun _ => none) reqOptionsOff rfl).1,
   (options_bypasses_path_check DEFAULT_OPTIONS [] [] (fun _ => none) reqOptionsOff rfl).2.2⟩

/-- C6: with CORS enabled, a wildcard entry in the origin allow-list makes
the Access-Control-Allow-Origin header "*" regardless of the Origin
header of the request; without a wildcard the header, when present, is
exactly the Origin of the request and that string is in the allow-list,
and the header
is omitted when the Origin is absent or not in the list. -/
theorem allow_origin_rules (opts : TransportOptions) (req : Request)
    (hen : opts.cors.enabled = true) :
    ("*" ∈ opts.cors.origins →
       lookupHeader (getCorsHeaders opts req) "Access-Control-Allow-Origin" = some "*")
    ∧ ("*" ∉ opts.cors.origins →
        (∀ v, lookupHeader (getCorsHeaders opts req) "Access-Control-Allow-Origin" = some v →
            req.getHeader "origin" = some v ∧ v ∈ opts.cors.origins)
        ∧ (∀ o, req.getHeader "origin" = some o → o ∉ opts.cors.origins →
            lookupHeader (getCorsHeaders opts req) "Access-Control-Allow-Origin" = none)
        ∧ (req.getHeader "origin" = none →
            lookupHeader (getCorsHeaders opts req) "Access-Control-Allow-Origin" = none)) := by
  constructor
  · intro hw
    cases hc : opts.cors.credentials with
    | false =>
      have hg : getCorsHeaders opts req =
          [("Access-Control-Allow-Methods", "POST, OPTIONS"),
           ("Access-Control-Allow-Headers", "Content-Type, Authorization"),
           ("Access-Control-Allow-Origin", "*")] := by
        simp [getCorsHeaders, hen, hw, hc]
      rw [hg]
      rfl
    | true =>
      have hg : getCorsHeaders opts req =
          [("Access-Control-Allow-Methods", "POST, OPTIONS"),
           ("Access-Control-Allow-Headers", "Content-Type, Authorization"),
           ("Access-Control-Allow-Origin", "*"),
           ("Access-Control-Allow-Credentials", "true")] := by
        simp [getCorsHeaders, hen, hw, hc]
      rw [hg]
      rfl
  · intro hw
    have hbase : ∀ hc : Bool, opts.cors.credentials = hc →
        (req.getHeader "origin" = none ∨
          ∃ o, req.getHeader "origin" = some o ∧ ¬(¬o = "" ∧ o ∈ opts.cors.origins)) →
        lookupHeader (getCorsHeaders opts req) "Access-Control-Allow-Origin" = none := by
      intro hc hhc hcase
      rcases hcase with hno | ⟨o, ho, hng⟩
      · cases hc with
        | false =>
          have hg : getCorsHeaders opts req =
              [("Access-Control-Allow-Methods", "POST, OPTIONS"),
               ("Access-Control-Allow-Headers", "Content-Type, Authorization")] := by
            simp [getCorsHeaders, hen, hw, hno, hhc]
          rw [hg]
          rfl
        | true =>
          have hg : getCorsHeaders opts req =
              [("Access-Control-Allow-Methods", "POST, OPTIONS"),
               ("Access-Control-Allow-Headers", "Content-Type, Authorization"),
               ("Access-Control-Allow-Credentials", "true")] := by
            simp [getCorsHeaders, hen, hw, hno, hhc]
          rw [hg]
          rfl
      · cases hc with
        | false =>
          have hg : getCorsHeaders opts req =
              [("Access-Control-Allow-Methods", "POST, OPTIONS"),
               ("Access-Control-Allow-Headers", "Content-Type, Authorization")] := by
            simp [getCorsHeaders, hen, hw, ho, hng, hhc]
          rw [hg]
          rfl
        | true =>
          have hg : getCorsHeaders opts req =
              [("Access-Control-Allow-Methods", "POST, OPTIONS"),
               ("Access-Control-Allow-Headers", "Content-Type, Authorization"),
               ("Access-Control-Allow-Credentials", "true")] := by
            simp [getCorsHeaders, hen, hw, ho, hng, hhc]
          rw [hg]
          rfl
    have hecho : ∀ o, req.getHeader "origin" = some o → ¬o = "" → o ∈ opts.cors.origins →
        lookupHeader (getCorsHeaders opts req) "Access-Control-Allow-Origin" = some o := by
      intro o ho hne hmem
      cases hc : opts.cors.credentials with
      | false =>
        have hg : getCorsHeaders opts req =
            [("Access-Control-Allow-Methods", "POST, OPTIONS"),
             ("Access-Control-Allow-Headers", "Content-Type, Authorization"),
             ("Access-Control-Allow-Origin", o)] := by
          simp [getCorsHeaders, hen, hw, ho, hne, hmem, hc]
        rw [hg]
        rfl
      | true =>
        have hg : getCorsHeaders opts req =
            [("Access-Control-Allow-Methods", "POST, OPTIONS"),
             ("Access-Control-Allow-Headers", "Content-Type, Authorization"),
             ("Access-Control-Allow-Origin", o),
             ("Access-Control-Allow-Credentials", "true")] := by
          simp [getCorsHeaders, hen, hw, ho, hne, hmem, hc]
        rw [hg]
        rfl
    refine ⟨fun v hv => ?_, fun o ho hcon => ?_, fun hno => ?_⟩
    · cases ho : req.getHeader "origin" with
      | none =>
        rw [hbase opts.cors.credentials rfl (Or.inl ho)] at hv
        exact Option.noConfusion hv
      | some o =>
        by_cases hne : o = ""
        · rw [hbase opts.cors.credentials rfl
            (Or.inr ⟨o, ho, fun hx => hx.1 hne⟩)] at hv
          exact Option.noConfusion hv
        · by_cases hmem : o ∈ opts.cors.origins
          · rw [hecho o ho hne hmem] at hv
            injection hv with hv2
            subst hv2
            exact ⟨rfl, hmem⟩
          · rw [hbase opts.cors.credentials rfl
              (Or.inr ⟨o, ho, fun hx => hmem hx.2⟩)] at hv
            exact Option.noConfusion hv
    · exact hbase opts.cors.credentials rfl (Or.inr ⟨o, ho, fun hx => hcon hx.2⟩)
    · exact hbase opts.cors.credentials rfl (Or.inl hno)

theorem allow_origin_rules_witness :
    lookupHeader (getCorsHeaders DEFAULT_OPTIONS reqOptionsMcp) "Access-Control-Allow-Origin"
      = some "*" :=
  (allow_origin_rules DEFAULT_OPTIONS reqOptionsMcp rfl).1 (by decide)

/-- C2 counterexample: with CORS enabled (default options), a POST off the
configured path yields a 404 response with an empty header map, while the
computed access-control headers are nonempty — so validation rejections
do not carry the CORS headers. -/
theorem cors_missing_on_404_cex :
    DEFAULT_OPTIONS.cors.enabled = true
    ∧ (handleRequest DEFAULT_OPTIONS ([] : List (Nat → HandlerAction Nat)) []
        (fun _ => none) reqPostOff).response
      = some { status := 404, headers := [], body := RespBody.text "Not Found" }
    ∧ getCorsHeaders DEFAULT_OPTIONS reqPostOff ≠ [] :=
  ⟨rfl, rfl, by decide⟩

/-- C2 (amended): with CORS enabled, the access-control headers are
attached to the 200 success, 500 internal-error and 204 preflight
responses, but the validation rejections (404, 405, 400, 413) are built
without any access-control header. -/
theorem cors_attached_selectively {μ : Type} (opts : TransportOptions)
    (handlers : List (μ → HandlerAction μ)) (events : List (ExchangeEvent μ))
    (pj : String → Option μ) (req : Request) (hen : opts.cors.enabled = true)
    (r : Response μ) (hr : (handleRequest opts handlers events pj req).response = some r) :
    ((r.status = 200 ∨ r.status = 500 ∨ r.status = 204) →
       ∀ p ∈ getCorsHeaders opts req, p ∈ r.headers)
    ∧ ((r.status = 404 ∨ r.status = 405 ∨ r.status = 400 ∨ r.status = 413) →
       ∀ p ∈ r.headers, jsStartsWith p.fst "Access-Control-" = false) := by
  unfold handleRequest at hr
  split at hr
  · have hx : some (handleCors opts req : Response μ) = some r := hr
    injection hx with hx2
    subst hx2
    have hch : (handleCors opts req : Response μ)
        = { status := 204, headers := getCorsHeaders opts req, body := RespBody.empty } := by
      simp [handleCors, hen]
    rw [hch]
    constructor
    · intro _ p hp
      exact hp
    · intro hk
      simp at hk
  · split at hr
    · have hx : some ({ status := 404, headers := [], body := RespBody.text "Not Found" }
          : Response μ) = some r := hr
      injection hx with hx2
      subst hx2
      constructor
      · intro hk
        simp at hk
      · intro _ p hp
        exact absurd hp (List.not_mem_nil p)
    · split at hr
      · have hx : some
            ({ status := 405,
               headers := [("Allow", "POST, OPTIONS")],
               body := RespBody.text "Method Not Allowed" } : Response μ) = some r := hr
        injection hx with hx2
        subst hx2
        constructor
        · intro hk
          simp at hk
        · intro _ p hp
          have hp2 : p = ("Allow", "POST, OPTIONS") := by simpa using hp
          subst hp2
          rfl
      · split at hr
        · have hx : some
              ({ status := 400,
                 headers := [],
                 body := RespBody.text "Bad Request: Content-Type must be application/json" }
                : Response μ) = some r := hr
          injection hx with hx2
          subst hx2
          constructor
          · intro hk
            simp at hk
          · intro _ p hp
            exact absurd hp (List.not_mem_nil p)
        · split at hr
          · have hx : some
                ({ status := 413,
                   headers := [],
                   body := RespBody.text "Payload Too Large" } : Response μ) = some r := hr
            injection hx with hx2
            subst hx2
            constructor
            · intro hk
              simp at hk
            · intro _ p hp
              exact absurd hp (List.not_mem_nil p)
          · split at hr
            · have hx : some
                  ({ status := 400,
                     headers := [],
                     body := RespBody.text "Bad Request: Invalid JSON" } : Response μ)
                  = some r := hr
              injection hx with hx2
              subst hx2
              constructor
              · intro hk
                simp at hk
              · intro _ p hp
                exact absurd hp (List.not_mem_nil p)
            · split at hr
              · exact Option.noConfusion hr
              · rename_i v heq
                have hx : some
                    ({ status := 200,
                       headers := ("Content-Type", "application/json") :: getCorsHeaders opts req,
                       body := RespBody.jsonMsg v } : Response μ) = some r := hr
                injection hx with hx2
                subst hx2
                constructor
                · intro _ p hp
                  exact List.mem_cons_of_mem _ hp
                · intro hk
                  simp at hk
              · rename_i e heq
                have hx : some
                    ({ status := 500,
                       headers := ("Content-Type", "application/json") :: getCorsHeaders opts req,
                       body := RespBody.errorEnvelope (-32603) "Internal error" (thrownData e) }
                      : Response μ) = some r := hr
                injection hx with hx2
                subst hx2
                constructor
                · intro _ p hp
                  exact List.mem_cons_of_mem _ hp
                · intro hk
                  simp at hk

theorem cors_attached_selectively_witness :
    ("Access-Control-Allow-Methods", "POST, OPTIONS") ∈
      (({ status := 200
          headers := ("Content-Type", "application/json") ::
            getCorsHeaders DEFAULT_OPTIONS reqPostMcp
          body := RespBody.jsonMsg (0 : Nat) } : Response Nat)).headers :=
  (cors_attached_selectively DEFAULT_OPTIONS [fun m => HandlerAction.ret [m]] []
      (fun _ => some (0 : Nat)) reqPostMcp rfl
      { status := 200
        headers := ("Content-Type", "application/json") ::
          getCorsHeaders DEFAULT_OPTIONS reqPostMcp
        body := RespBody.jsonMsg (0 : Nat) } rfl).1 (Or.inl rfl)
    ("Access-Control-Allow-Methods", "POST, OPTIONS") (by decide)

end FastMCPWorkers
